import Mathlib

/-!
Shallow embedding of the incremental-sync core of the `yan` fear-and-greed
index tracker (`src/database.py`, `src/fetcher.py`, `src/config.py`,
`fill_missing_data.py`), together with theorems settling the claims about it.

Modelling conventions:
* Calendar dates (ISO `YYYY-MM-DD` strings in the code) are represented by
  integers (day numbers).  The ISO format is order-isomorphic to day numbers
  (lexicographic string order = chronological order) and `timedelta(days=1)`
  is `+ 1`.
* The SQLite table `fng_data (date TEXT PRIMARY KEY, value INTEGER)` is an
  association list keyed by date; `INSERT .. ON CONFLICT(date) DO UPDATE`
  updates the (unique, by PRIMARY KEY) row with that date or appends a new row.
* SQLite `AVG` is modelled over `ℚ`; `AVG` of an empty row set is `NULL`,
  which `get_stats` maps to `0`, so it is modelled as `0`.
* `datetime.fromtimestamp(ts/1000).strftime("%Y-%m-%d")` depends on the host
  timezone; it is kept as an uninterpreted parameter `toDate : Int → Int`
  (epoch milliseconds to local day number).  No claim depends on its values.
* Network calls are modelled by outcome functions (`Except` values per
  attempt / per start date); `time.sleep` is recorded, not performed.
-/

namespace Yan

/-- `FngRecord` from `src/database.py`: one `(date, value)` row.  The
`created_at`/`updated_at` audit columns take no part in any claim and are
omitted. -/
structure FngRecord where
  date : Int
  value : Int
deriving DecidableEq, Repr

/-- The `fng_data` table: rows keyed by `date` (PRIMARY KEY). -/
abbrev Store := List FngRecord

/-- One `INSERT INTO fng_data .. ON CONFLICT(date) DO UPDATE SET value =
excluded.value` statement: if a row with the date exists (it is unique, by
PRIMARY KEY) its value is overwritten, otherwise the row is appended. -/
def upsertOne (s : Store) (r : FngRecord) : Store :=
  match s with
  | [] => [r]
  | p :: ps =>
      if p.date = r.date then { date := p.date, value := r.value } :: ps
      else p :: upsertOne ps r

/-- `FngDatabase.insert_records` (`src/database.py:68-83`): returns `0` on an
empty batch, otherwise executes one upsert per record via `executemany` and
returns `cursor.rowcount`, which for `INSERT .. ON CONFLICT DO UPDATE` counts
one affected row per statement, i.e. the batch length. -/
def insertRecords (s : Store) (records : List FngRecord) : Store × Nat :=
  if records.isEmpty then (s, 0)
  else (records.foldl upsertOne s, records.length)

/-- `SELECT value FROM fng_data WHERE date = d` (dates are unique keys, so the
first hit is the row). -/
def lookupStore (s : Store) (d : Int) : Option Int :=
  match s with
  | [] => none
  | r :: rs => if r.date = d then some r.value else lookupStore rs d

/-- Value of the last record carrying date `d` in a batch (the record whose
value survives when the whole batch is upserted), `none` if the batch has no
record for `d`.  Proof infrastructure for the upsert lemmas. -/
def lastValue (B : List FngRecord) (d : Int) : Option Int :=
  match B with
  | [] => none
  | r :: rs =>
      match lastValue rs d with
      | some v => some v
      | none => if r.date = d then some r.value else none

/-- Rows passing the `WHERE value > 0` filter used by every read path. -/
def positiveRows (s : Store) : Store :=
  s.filter fun r => decide (0 < r.value)

/-- SQLite `AVG` over a bag of integer values, with `NULL` (empty input)
rendered as `0` as `get_stats` does (`round(x, 2) if x else 0`). -/
def sqlAvg (vs : List Int) : ℚ :=
  if vs.isEmpty then 0 else (vs.sum : ℚ) / vs.length

/-- `get_stats`'s 7-day figure (`src/database.py:131-137`): the query
`SELECT AVG(value) FROM fng_data WHERE value > 0 ORDER BY date DESC LIMIT 7`
is an aggregate query producing a single row, so the `ORDER BY .. LIMIT 7`
applies to that single result row and the average ranges over ALL rows with
`value > 0`. -/
def avg7dCode (s : Store) : ℚ :=
  sqlAvg ((positiveRows s).map (·.value))

/-- `get_stats`'s 30-day figure (`src/database.py:139-145`): same aggregate
query shape with `LIMIT 30`, hence likewise the average over all rows with
`value > 0`. -/
def avg30dCode (s : Store) : ℚ :=
  sqlAvg ((positiveRows s).map (·.value))

/-- Insert a record into a list kept in descending date order. -/
def insertDesc (r : FngRecord) : Store → Store
  | [] => [r]
  | p :: ps => if decide (p.date ≤ r.date) then r :: p :: ps else p :: insertDesc r ps

/-- Sort rows by date descending (`ORDER BY date DESC`). -/
def sortByDateDesc (s : Store) : Store :=
  s.foldr insertDesc []

/-- Modelled from the spec: the trailing `n`-row mean `§4.4` prescribes —
"trailing 7-day and 30-day means computed over the most recent N rows by date
descending".  Used only to compare against `avg7dCode`/`avg30dCode`. -/
def trailingMeanSpec (n : Nat) (s : Store) : ℚ :=
  sqlAvg (((sortByDateDesc (positiveRows s)).take n).map (·.value))

/-- `FngDatabase.get_latest_date` (`src/database.py:48-56`):
`SELECT MAX(date) FROM fng_data WHERE value > 0`, `None` when no such row. -/
def getLatestDate (s : Store) : Option Int :=
  (positiveRows s).foldl
    (fun acc r =>
      match acc with
      | none => some r.date
      | some m => some (max m r.date))
    none

/-- The five bands of `FngDatabase.get_distribution`
(`src/database.py:181-187`), `(name, low, high)`. -/
def distRanges : List (String × Int × Int) :=
  [("极度恐惧", 0, 25), ("恐惧", 25, 45), ("中性", 45, 55),
   ("贪婪", 55, 75), ("极度贪婪", 75, 101)]

/-- One band's count:
`SELECT COUNT(*) FROM fng_data WHERE value >= low AND value < high AND value > 0`. -/
def distributionCount (s : Store) (low high : Int) : Nat :=
  (s.filter fun r =>
    decide (low ≤ r.value) && decide (r.value < high) && decide (0 < r.value)).length

/-- `FngDatabase.get_distribution` (`src/database.py:175-197`). -/
def getDistribution (s : Store) : List (String × Nat) :=
  distRanges.map fun nr => (nr.1, distributionCount s nr.2.1 nr.2.2)

/-- `FNG_LEVELS` from `src/config.py:36-42`: `(low, high)` bound pairs mapped
to `(chinese name, english name, color)` info triples. -/
def fngLevels : List ((ℚ × ℚ) × (String × String × String)) :=
  [((0, 25), ("极度恐惧", "Extreme Fear", "#EF4444")),
   ((25, 45), ("恐惧", "Fear", "#F97316")),
   ((45, 55), ("中性", "Neutral", "#F59E0B")),
   ((55, 75), ("贪婪", "Greed", "#10B981")),
   ((75, 100), ("极度贪婪", "Extreme Greed", "#059669"))]

/-- `get_level_info` from `src/config.py:45-50`: the first level whose
half-open interval `low ≤ value < high` contains the value; if none matches
(e.g. `value = 100`), the fallback `FNG_LEVELS[(75, 100)]` is returned. -/
def getLevelInfo (value : ℚ) : String × String × String :=
  match fngLevels.find? fun p => decide (p.1.1 ≤ value) && decide (value < p.1.2) with
  | some p => p.2
  | none => ("极度贪婪", "Extreme Greed", "#059669")

/-- One raw item of the remote payload, `{"x": epoch_ms, "y": value}`;
`none` models an absent field (`item.get(..)` yielding `None`). -/
structure ApiItem where
  x : Option Int
  y : Option Int
deriving DecidableEq, Repr

/-- The `"fear_and_greed_historical"` object; `data = none` models an absent
`"data"` key (`.get("data", [])`). -/
structure ApiHistorical where
  data : Option (List ApiItem)
deriving DecidableEq, Repr

/-- The remote JSON payload; `fear_and_greed_historical = none` models a
payload lacking that key.  An entirely falsy/absent payload is `none` at the
`Option ApiPayload` use sites. -/
structure ApiPayload where
  fear_and_greed_historical : Option ApiHistorical
deriving DecidableEq, Repr

/-- The per-item body of `FngFetcher._parse_api_data`'s loop
(`src/fetcher.py:64-75`): `timestamp = item.get("x")`, `value = item.get("y")`;
`if timestamp and value is not None` (note: truthiness test on the timestamp,
so `0` fails it); then the timestamp is converted to a date and the record is
kept iff `0 <= value <= 100`. -/
def parseItem (toDate : Int → Int) (item : ApiItem) : Option FngRecord :=
  match item.x, item.y with
  | some ts, some v =>
      if ts ≠ 0 then
        if 0 ≤ v ∧ v ≤ 100 then some { date := toDate ts, value := v } else none
      else none
  | _, _ => none

/-- `FngFetcher._parse_api_data` (`src/fetcher.py:55-77`): returns `[]` when
the payload is falsy or lacks `"fear_and_greed_historical"`, reads the nested
`"data"` list (defaulting to `[]`), and accumulates the records surviving
`parseItem`. -/
def parseApiData (toDate : Int → Int) (data : Option ApiPayload) : List FngRecord :=
  match data with
  | none => []
  | some payload =>
      match payload.fear_and_greed_historical with
      | none => []
      | some hist => (hist.data.getD []).filterMap (parseItem toDate)

/-- `MAX_RETRIES` from `src/config.py:13`. -/
def maxRetries : Nat := 3

/-- `RETRY_DELAY` from `src/config.py:14` (seconds). -/
def retryDelay : Nat := 5

/-- Result of running `_fetch_from_api`'s retry loop: the returned value or
raised error, the number of attempts made, and the list of sleep durations
performed between attempts. -/
structure FetchTrace where
  result : Except String (Option ApiPayload)
  attempts : Nat
  sleeps : List Nat
deriving Repr

/-- The `for attempt in range(MAX_RETRIES)` loop of `FngFetcher._fetch_from_api`
(`src/fetcher.py:38-53`), one outcome per attempt: a successful request returns
its payload at once; a failed attempt with `attempt < MAX_RETRIES - 1` sleeps
`RETRY_DELAY * (attempt + 1)` and continues; the last failed attempt raises
`RuntimeError`.  `fuel` counts the remaining loop iterations; an exhausted
range falls through to the trailing `return None`. -/
def fetchAttempts (outcomes : Nat → Except String ApiPayload) :
    Nat → Nat → FetchTrace
  | _, 0 => { result := Except.ok none, attempts := 0, sleeps := [] }
  | attempt, fuel + 1 =>
      match outcomes attempt with
      | Except.ok p => { result := Except.ok (some p), attempts := 1, sleeps := [] }
      | Except.error e =>
          if attempt < maxRetries - 1 then
            let rest := fetchAttempts outcomes (attempt + 1) fuel
            { result := rest.result
              attempts := rest.attempts + 1
              sleeps := retryDelay * (attempt + 1) :: rest.sleeps }
          else
            { result := Except.error ("API请求失败: " ++ e), attempts := 1, sleeps := [] }

/-- `FngFetcher._fetch_from_api` (`src/fetcher.py:34-53`), abstracted over the
per-attempt outcome of `requests.get(..)` + `raise_for_status` + `.json()`. -/
def fetchFromApi (outcomes : Nat → Except String ApiPayload) : FetchTrace :=
  fetchAttempts outcomes 0 maxRetries

/-- The observable outcome of one `fetch_incremental` call: records affected,
status message, how many `_fetch_from_api` calls were made and with which
start date. -/
structure SyncResult where
  affected : Nat
  message : String
  fetchCalls : Nat
  fetchStart : Option Int
deriving DecidableEq, Repr

/-- `FngFetcher.fetch_incremental` (`src/fetcher.py:79-110`): the start date is
`latest + 1` when the store has a latest date, else `today - daysBack`; if
`start ≥ today` it returns `(0, "数据已是最新")` without fetching; otherwise it
fetches once from `start`, parses, and upserts any resulting records. -/
def fetchIncremental (toDate : Int → Int) (api : Int → Option ApiPayload)
    (db : Store) (today : Int) (daysBack : Int) : Store × SyncResult :=
  let start :=
    match getLatestDate db with
    | some d => d + 1
    | none => today - daysBack
  if today ≤ start then
    (db, { affected := 0, message := "数据已是最新", fetchCalls := 0, fetchStart := none })
  else
    let records := parseApiData toDate (api start)
    if records.isEmpty then
      (db, { affected := 0, message := "API返回无新数据", fetchCalls := 1,
             fetchStart := some start })
    else
      let ins := insertRecords db records
      (ins.1, { affected := ins.2,
                message := "成功获取 " ++ toString ins.2 ++ " 条记录",
                fetchCalls := 1, fetchStart := some start })

/-- Insert a date into a list kept in ascending order (one step of `sorted`). -/
def insertAsc (d : Int) : List Int → List Int
  | [] => [d]
  | e :: es => if d ≤ e then d :: e :: es else e :: insertAsc d es

/-- `sorted(dates)` in `fetch_missing_data` (`fill_missing_data.py:64`). -/
def sortAsc (l : List Int) : List Int :=
  l.foldr insertAsc []

/-- Running state of `fetch_missing_data`'s loop: the store, `total_inserted`,
and the `errors` list (the date together with the message appended as
`f"{date}: {str(e)}"`). -/
structure BackfillState where
  db : Store
  totalInserted : Nat
  errors : List (Int × String)
deriving DecidableEq, Repr

/-- One iteration of `fetch_missing_data`'s per-date loop
(`fill_missing_data.py:69-84`): fetch the date, parse, upsert when any records
came back, accumulate the count; an exception appends one entry to `errors`
and the loop continues. -/
def backfillStep (f : Int → Except String (Option ApiPayload)) (toDate : Int → Int)
    (st : BackfillState) (date : Int) : BackfillState :=
  match f date with
  | Except.error e => { st with errors := st.errors ++ [(date, e)] }
  | Except.ok payload =>
      let records := parseApiData toDate payload
      if records.isEmpty then st
      else
        let ins := insertRecords st.db records
        { st with db := ins.1, totalInserted := st.totalInserted + ins.2 }

/-- `fetch_missing_data` (`fill_missing_data.py:52-92`), abstracted over the
per-date fetch outcome: sorts the requested dates ascending and folds the
per-date step over them.  (The politeness `time.sleep(1)` and the progress
printing have no observable effect on the modelled state.) -/
def fetchMissingData (f : Int → Except String (Option ApiPayload)) (toDate : Int → Int)
    (db : Store) (dates : List Int) : BackfillState :=
  (sortAsc dates).foldl (backfillStep f toDate) { db := db, totalInserted := 0, errors := [] }

/-- The records a backfill date contributes: what a successful fetch parses to,
`[]` for a failed fetch. -/
def successRecords (f : Int → Except String (Option ApiPayload)) (toDate : Int → Int)
    (d : Int) : List FngRecord :=
  match f d with
  | Except.ok payload => parseApiData toDate payload
  | Except.error _ => []

/-- A store of 8 rows on consecutive dates: the oldest row (date 1) has value
80, the 7 most recent (dates 2–8) all have value 10.  Exhibits the trailing
7-row mean bug. -/
def avgBugStore7 : Store :=
  { date := 1, value := 80 } :: (List.range 7).map fun i => { date := i + 2, value := 10 }

/-- A store of 31 rows on consecutive dates: the oldest row (date 1) has value
80, the 30 most recent (dates 2–31) all have value 10.  Exhibits the trailing
30-row mean bug. -/
def avgBugStore30 : Store :=
  { date := 1, value := 80 } :: (List.range 30).map fun i => { date := i + 2, value := 10 }

/-! ### Lemmas about the store's upsert -/

theorem lookup_upsertOne (s : Store) (r : FngRecord) (d : Int) :
    lookupStore (upsertOne s r) d =
      if r.date = d then some r.value else lookupStore s d := by
  induction s with
  | nil =>
      by_cases h : r.date = d <;> simp [upsertOne, lookupStore, h]
  | cons p ps ih =>
      by_cases hpr : p.date = r.date
      · by_cases hpd : p.date = d
        · have hrd : r.date = d := hpr ▸ hpd
          simp [upsertOne, hpr, lookupStore, hpd, hrd]
        · have hrd : ¬ r.date = d := fun h => hpd (hpr.trans h)
          simp [upsertOne, hpr, lookupStore, hpd, hrd]
      · by_cases hpd : p.date = d
        · have hrd : ¬ r.date = d := fun h => hpr (hpd.trans h.symm)
          have hdr : ¬ d = r.date := fun h => hrd h.symm
          simp [upsertOne, hpr, lookupStore, hpd, hrd, hdr]
        · simp [upsertOne, hpr, lookupStore, hpd, ih]

theorem lookup_foldl_upsert (B : List FngRecord) :
    ∀ (s : Store) (d : Int),
      lookupStore (B.foldl upsertOne s) d =
        match lastValue B d with
        | some v => some v
        | none => lookupStore s d := by
  induction B with
  | nil => intro s d; simp [lastValue]
  | cons r rs ih =>
      intro s d
      rw [List.foldl_cons, ih]
      cases h : lastValue rs d with
      | some v => simp [lastValue, h]
      | none =>
          by_cases hrd : r.date = d <;>
            simp [lastValue, h, lookup_upsertOne, hrd]

/-- Claim C5: applying `insert_records` twice with the same batch leaves the store's
date → value content identical to applying it once, and the second call
reports the same affected-count as the first (the same rows are touched while
no value changes). -/
theorem insertRecords_idempotent (S : Store) (B : List FngRecord) :
    (∀ d, lookupStore (insertRecords (insertRecords S B).1 B).1 d
        = lookupStore (insertRecords S B).1 d)
    ∧ (insertRecords (insertRecords S B).1 B).2 = (insertRecords S B).2 := by
  constructor
  · intro d
    by_cases hB : B.isEmpty
    · simp [insertRecords, hB]
    · simp only [insertRecords, hB, Bool.false_eq_true, if_false]
      rw [lookup_foldl_upsert]
      cases h : lastValue B d with
      | some v => rw [lookup_foldl_upsert, h]
      | none => simp
  · by_cases hB : B.isEmpty <;> simp [insertRecords, hB]

/-- Claim C2, counterexample: the store's write path does not reject or ignore a
record with value outside `[0,100]` — upserting `(date 0, value 150)` into an
empty store leaves a stored row with value `150 > 100`. -/
theorem insertRecords_out_of_range_cex :
    (insertRecords [] [{ date := 0, value := 150 }]).1 = [{ date := 0, value := 150 }]
    ∧ lookupStore (insertRecords [] [{ date := 0, value := 150 }]).1 0 = some 150
    ∧ ¬ (150 : Int) ≤ 100 := by
  refine ⟨rfl, rfl, by decide⟩

/-- Claim C2, amended: `insert_records` performs no range validation of its own; a
record whose value lies outside `[0,100]` handed directly to the store's write
path is stored as given (range filtering happens only upstream, in
`_parse_api_data` / `import_from_csv`, and reads filter only `value > 0`). -/
theorem insertRecords_stores_out_of_range (S : Store) (d v : Int)
    (_h : v < 0 ∨ 100 < v) :
    lookupStore (insertRecords S [{ date := d, value := v }]).1 d = some v := by
  simp [insertRecords, lookup_upsertOne]

theorem insertRecords_stores_out_of_range_witness :
    ((150 : Int) < 0 ∨ (100 : Int) < 150)
    ∧ lookupStore (insertRecords [] [{ date := 0, value := 150 }]).1 0 = some 150 :=
  ⟨Or.inr (by decide),
   insertRecords_stores_out_of_range [] 0 150 (Or.inr (by decide))⟩

/-! ### The validation pipeline -/

/-- Claim C3, counterexample: the claim that `value=0` is discarded by the
validation pipeline is false — an observation with a present timestamp and
`y = 0` passes the `0 <= value <= 100` check and produces a record. -/
theorem parseApiData_value_zero_cex :
    parseApiData (fun _ => 0)
      (some { fear_and_greed_historical :=
                some { data := some [{ x := some 1000, y := some 0 }] } })
      = [{ date := 0, value := 0 }]
    ∧ parseApiData (fun _ => 0)
      (some { fear_and_greed_historical :=
                some { data := some [{ x := some 1000, y := some 0 }] } })
      ≠ [] := by
  refine ⟨by decide, by decide⟩

/-- Claim C3, amended: for raw observations with a present (truthy) timestamp,
`value=150` is discarded and `value=25` and `value=100` are accepted, but
`value=0` is also accepted by the parser (the range check is
`0 <= value <= 100`); zero-valued rows are excluded only at read time by the
stores `value > 0` filters. -/
theorem parseApiData_boundaries (toDate : Int → Int) (ts : Int) (h : ts ≠ 0) :
    parseApiData toDate
      (some { fear_and_greed_historical := some { data := some (
        [{ x := some ts, y := some 150 }, { x := some ts, y := some 0 },
         { x := some ts, y := some 25 }, { x := some ts, y := some 100 }]) } })
      = [{ date := toDate ts, value := 0 }, { date := toDate ts, value := 25 },
         { date := toDate ts, value := 100 }] := by
  simp [parseApiData, parseItem, h]

theorem parseApiData_boundaries_witness :
    (1000 : Int) ≠ 0
    ∧ parseApiData (fun _ => 7)
      (some { fear_and_greed_historical := some { data := some (
        [{ x := some 1000, y := some 150 }, { x := some 1000, y := some 0 },
         { x := some 1000, y := some 25 }, { x := some 1000, y := some 100 }]) } })
      = [{ date := 7, value := 0 }, { date := 7, value := 25 },
         { date := 7, value := 100 }] :=
  ⟨by decide, parseApiData_boundaries (fun _ => 7) 1000 (by decide)⟩

/-- Claim C9: a payload that is absent, lacks the `"fear_and_greed_historical"`
field, or lacks the nested `"data"` list parses to zero records without
raising; and an observation missing its timestamp field or its value field is
silently dropped. -/
theorem parseApiData_missing_fields (toDate : Int → Int) :
    parseApiData toDate none = []
    ∧ parseApiData toDate (some { fear_and_greed_historical := none }) = []
    ∧ parseApiData toDate
        (some { fear_and_greed_historical := some { data := none } }) = []
    ∧ ∀ (l1 l2 : List ApiItem) (item : ApiItem), item.x = none ∨ item.y = none →
        parseApiData toDate
          (some { fear_and_greed_historical :=
                    some { data := some (l1 ++ item :: l2) } })
        = parseApiData toDate
            (some { fear_and_greed_historical := some { data := some (l1 ++ l2) } }) := by
  refine ⟨rfl, rfl, rfl, ?_⟩
  intro l1 l2 item h
  have hitem : parseItem toDate item = none := by
    rcases h with h | h
    · cases hy : item.y <;> simp [parseItem, h]
    · cases hx : item.x <;> simp [parseItem, h]
  simp [parseApiData, List.filterMap_append, List.filterMap_cons, hitem]

theorem parseApiData_missing_fields_witness :
    (({ x := none, y := some 5 } : ApiItem).x = none
      ∨ ({ x := none, y := some 5 } : ApiItem).y = none)
    ∧ parseApiData (fun _ => 0)
        (some { fear_and_greed_historical := some { data := some (
          [] ++ ({ x := none, y := some 5 } : ApiItem) :: [{ x := some 1, y := some 7 }]) } })
      = parseApiData (fun _ => 0)
          (some { fear_and_greed_historical := some { data := some (
            [] ++ [{ x := some 1, y := some 7 }]) } }) :=
  ⟨Or.inl rfl,
   (parseApiData_missing_fields (fun _ => 0)).2.2.2
     [] [{ x := some 1, y := some 7 }] { x := none, y := some 5 } (Or.inl rfl)⟩

/-- Claim C10: an observation whose timestamp field is present but equal to `0` is
dropped by the parser exactly as one whose timestamp field is missing — the
guard `if timestamp and value is not None` tests the timestamp's truthiness,
not its presence. -/
theorem parseApiData_zero_timestamp (toDate : Int → Int)
    (l1 l2 : List ApiItem) (y : Option Int) :
    parseApiData toDate
        (some { fear_and_greed_historical :=
                  some { data := some (l1 ++ { x := some 0, y := y } :: l2) } })
      = parseApiData toDate
          (some { fear_and_greed_historical :=
                    some { data := some (l1 ++ { x := none, y := y } :: l2) } })
    ∧ parseApiData toDate
        (some { fear_and_greed_historical :=
                  some { data := some (l1 ++ { x := some 0, y := y } :: l2) } })
      = parseApiData toDate
          (some { fear_and_greed_historical := some { data := some (l1 ++ l2) } }) := by
  have h0 : parseItem toDate { x := some 0, y := y } = none := by
    cases y <;> simp [parseItem]
  have hn : parseItem toDate { x := none, y := y } = none := by
    cases y <;> simp [parseItem]
  constructor <;>
    simp [parseApiData, List.filterMap_append, List.filterMap_cons, h0, hn]

/-! ### Category bands and distribution -/

/-- Claim C8: the category-band mapping at the boundary values (24 → Extreme Fear,
25/44 → Fear, 45 → Neutral, 74 → Greed, 75/100 → Extreme Greed; 100 hits the
fallback branch of `get_level_info`), and the distribution's top band
`[75,101)` counts the value 100. -/
theorem levelBoundaries :
    getLevelInfo 24 = ("极度恐惧", "Extreme Fear", "#EF4444")
    ∧ getLevelInfo 25 = ("恐惧", "Fear", "#F97316")
    ∧ getLevelInfo 44 = ("恐惧", "Fear", "#F97316")
    ∧ getLevelInfo 45 = ("中性", "Neutral", "#F59E0B")
    ∧ getLevelInfo 74 = ("贪婪", "Greed", "#10B981")
    ∧ getLevelInfo 75 = ("极度贪婪", "Extreme Greed", "#059669")
    ∧ getLevelInfo 100 = ("极度贪婪", "Extreme Greed", "#059669")
    ∧ distributionCount [{ date := 1, value := 100 }] 75 101 = 1
    ∧ getDistribution [{ date := 1, value := 100 }]
        = [("极度恐惧", 0), ("恐惧", 0), ("中性", 0), ("贪婪", 0), ("极度贪婪", 1)] := by
  decide

/-! ### The trailing-mean bug in `get_stats` -/

theorem sqlAvg_eval (l : List Int) (h : l.isEmpty = false) :
    sqlAvg l = (l.sum : ℚ) / l.length := by
  simp [sqlAvg, h]

/-- Claim C1: the claim is the code's intent (the queries are commented `最近7日均值`
/ `最近30日均值`, "mean of the most recent 7/30 days") but the SQL is wrong —
`SELECT AVG(value) .. ORDER BY date DESC LIMIT 7` aggregates over ALL
`value > 0` rows before the single-row result is limited.  On a store of 8
rows whose 7 most recent values are all 10 and whose oldest is 80, the code
yields `150/8` while the trailing 7-row mean is `10`; likewise for 30 rows. -/
theorem avg7d_not_trailing_cex :
    avg7dCode avgBugStore7 = 150 / 8
    ∧ trailingMeanSpec 7 avgBugStore7 = 10
    ∧ avg7dCode avgBugStore7 ≠ trailingMeanSpec 7 avgBugStore7
    ∧ avg30dCode avgBugStore30 = 380 / 31
    ∧ trailingMeanSpec 30 avgBugStore30 = 10
    ∧ avg30dCode avgBugStore30 ≠ trailingMeanSpec 30 avgBugStore30 := by
  have h7 : ((positiveRows avgBugStore7).map fun r => r.value)
      = 80 :: List.replicate 7 10 := by decide
  have t7 : (((sortByDateDesc (positiveRows avgBugStore7)).take 7).map fun r => r.value)
      = List.replicate 7 10 := by decide
  have h30 : ((positiveRows avgBugStore30).map fun r => r.value)
      = 80 :: List.replicate 30 10 := by decide
  have t30 : (((sortByDateDesc (positiveRows avgBugStore30)).take 30).map fun r => r.value)
      = List.replicate 30 10 := by decide
  have e7 : avg7dCode avgBugStore7 = 150 / 8 := by
    rw [avg7dCode, h7, sqlAvg_eval _ (by decide),
        show ((80 :: List.replicate 7 10 : List Int)).sum = 150 by decide,
        show ((80 :: List.replicate 7 10 : List Int)).length = 8 by decide]
    norm_num
  have f7 : trailingMeanSpec 7 avgBugStore7 = 10 := by
    rw [trailingMeanSpec, t7, sqlAvg_eval _ (by decide),
        show ((List.replicate 7 10 : List Int)).sum = 70 by decide,
        show ((List.replicate 7 10 : List Int)).length = 7 by decide]
    norm_num
  have e30 : avg30dCode avgBugStore30 = 380 / 31 := by
    rw [avg30dCode, h30, sqlAvg_eval _ (by decide),
        show ((80 :: List.replicate 30 10 : List Int)).sum = 380 by decide,
        show ((80 :: List.replicate 30 10 : List Int)).length = 31 by decide]
    norm_num
  have f30 : trailingMeanSpec 30 avgBugStore30 = 10 := by
    rw [trailingMeanSpec, t30, sqlAvg_eval _ (by decide),
        show ((List.replicate 30 10 : List Int)).sum = 300 by decide,
        show ((List.replicate 30 10 : List Int)).length = 30 by decide]
    norm_num
  refine ⟨e7, f7, ?_, e30, f30, ?_⟩
  · rw [e7, f7]; norm_num
  · rw [e30, f30]; norm_num

/-! ### Retry behaviour of `_fetch_from_api` -/

/-- Claim C6: for every sequence of per-attempt outcomes, `_fetch_from_api` makes at
most 3 attempts; its sleeps strictly increase (linearly: attempt index times
the base delay of 5); the payload of the first successful attempt is returned;
and three failures raise a terminal error (an `Except.error`, distinct from
any successful return, in particular from an empty successful payload). -/
theorem fetchFromApi_spec (outcomes : Nat → Except String ApiPayload) :
    (fetchFromApi outcomes).attempts ≤ 3
    ∧ List.Chain' (· < ·) (fetchFromApi outcomes).sleeps
    ∧ (∀ (p : ApiPayload) (i : Nat), i < 3 → outcomes i = Except.ok p →
        (∀ j, j < i → ∃ e, outcomes j = Except.error e) →
        (fetchFromApi outcomes).result = Except.ok (some p)
          ∧ (fetchFromApi outcomes).attempts = i + 1
          ∧ (fetchFromApi outcomes).sleeps
              = (List.range i).map fun k => retryDelay * (k + 1))
    ∧ (∀ e0 e1 e2, outcomes 0 = Except.error e0 → outcomes 1 = Except.error e1 →
        outcomes 2 = Except.error e2 →
        (fetchFromApi outcomes).result = Except.error ("API请求失败: " ++ e2)
          ∧ (fetchFromApi outcomes).attempts = 3
          ∧ (fetchFromApi outcomes).sleeps = [5, 10]
          ∧ ∀ q : Option ApiPayload, (fetchFromApi outcomes).result ≠ Except.ok q) := by
  cases h0 : outcomes 0 with
  | ok p0 =>
      have htr : fetchFromApi outcomes
          = { result := Except.ok (some p0), attempts := 1, sleeps := [] } := by
        simp [fetchFromApi, fetchAttempts, maxRetries, h0]
      refine ⟨by simp [htr], by simp [htr], ?_, ?_⟩
      · intro p i hi hok hprev
        have hi0 : i = 0 := by
          by_contra hne
          obtain ⟨e, he⟩ := hprev 0 (Nat.pos_of_ne_zero hne)
          rw [h0] at he
          exact Except.noConfusion he
        subst hi0
        have hp : p0 = p := by
          have := h0.symm.trans hok
          exact Except.ok.inj this
        subst hp
        simp [htr]
      · intro e0 e1 e2 he0
        exact absurd he0 (fun h => Except.noConfusion h)
  | error e0' =>
      cases h1 : outcomes 1 with
      | ok p1 =>
          have htr : fetchFromApi outcomes
              = { result := Except.ok (some p1), attempts := 2,
                  sleeps := [retryDelay * 1] } := by
            simp [fetchFromApi, fetchAttempts, maxRetries, h0, h1]
          refine ⟨by simp [htr], by simp [htr, List.chain'_singleton], ?_, ?_⟩
          · intro p i hi hok hprev
            have hi1 : i = 1 := by
              interval_cases i
              · rw [h0] at hok; exact Except.noConfusion hok
              · rfl
              · obtain ⟨e, he⟩ := hprev 1 (by omega)
                rw [h1] at he
                exact Except.noConfusion he
            subst hi1
            have hp : p1 = p := by
              have := h1.symm.trans hok
              exact Except.ok.inj this
            subst hp
            simp [htr, List.range_succ]
          · intro e0 e1 e2 _ he1
            exact absurd he1 (fun h => Except.noConfusion h)
      | error e1' =>
          cases h2 : outcomes 2 with
          | ok p2 =>
              have htr : fetchFromApi outcomes
                  = { result := Except.ok (some p2), attempts := 3,
                      sleeps := [retryDelay * 1, retryDelay * 2] } := by
                simp [fetchFromApi, fetchAttempts, maxRetries, h0, h1, h2]
              refine ⟨by simp [htr], by simp [htr, retryDelay], ?_, ?_⟩
              · intro p i hi hok hprev
                have hi2 : i = 2 := by
                  interval_cases i
                  · rw [h0] at hok; exact Except.noConfusion hok
                  · rw [h1] at hok; exact Except.noConfusion hok
                  · rfl
                subst hi2
                have hp : p2 = p := by
                  have := h2.symm.trans hok
                  exact Except.ok.inj this
                subst hp
                simp [htr, List.range_succ]
              · intro e0 e1 e2 _ _ he2
                exact absurd he2 (fun h => Except.noConfusion h)
          | error e2' =>
              have htr : fetchFromApi outcomes
                  = { result := Except.error ("API请求失败: " ++ e2'),
                      attempts := 3,
                      sleeps := [retryDelay * 1, retryDelay * 2] } := by
                simp [fetchFromApi, fetchAttempts, maxRetries, h0, h1, h2]
              refine ⟨by simp [htr], by simp [htr, retryDelay], ?_, ?_⟩
              · intro p i hi hok hprev
                interval_cases i
                · rw [h0] at hok; exact absurd hok (fun h => Except.noConfusion h)
                · rw [h1] at hok; exact absurd hok (fun h => Except.noConfusion h)
                · rw [h2] at hok; exact absurd hok (fun h => Except.noConfusion h)
              · intro e0 e1 e2 he0 he1 he2
                have he : e2' = e2 := Except.error.inj he2
                subst he
                refine ⟨by simp [htr], by simp [htr], by simp [htr, retryDelay], ?_⟩
                intro q
                simp [htr]

theorem fetchFromApi_spec_witness :
    ((fun n => if n < 2 then Except.error "boom"
               else Except.ok ({ fear_and_greed_historical := none } : ApiPayload)) 2
        = Except.ok ({ fear_and_greed_historical := none } : ApiPayload))
    ∧ (fetchFromApi (fun n => if n < 2 then Except.error "boom"
               else Except.ok ({ fear_and_greed_historical := none } : ApiPayload))).result
        = Except.ok (some { fear_and_greed_historical := none })
    ∧ (fetchFromApi (fun n => if n < 2 then Except.error "boom"
               else Except.ok ({ fear_and_greed_historical := none } : ApiPayload))).attempts
        = 3 :=
  ⟨rfl,
   ((fetchFromApi_spec _).2.2.1 { fear_and_greed_historical := none } 2 (by omega)
      rfl (fun j hj => ⟨"boom", by interval_cases j <;> rfl⟩)).1,
   ((fetchFromApi_spec _).2.2.1 { fear_and_greed_historical := none } 2 (by omega)
      rfl (fun j hj => ⟨"boom", by interval_cases j <;> rfl⟩)).2.1⟩

/-! ### Incremental synchronization -/

/-- Claim C4: when the store's latest date (over `value > 0` rows) is `D`,
`fetch_incremental` computes the fetch window start `D + 1`; if that start is
on or after today it makes zero fetch calls and returns zero affected records
with the "already current" status (`数据已是最新`), and otherwise it issues its
single fetch request starting at `D + 1`. -/
theorem fetchIncremental_spec (toDate : Int → Int) (api : Int → Option ApiPayload)
    (db : Store) (today daysBack D : Int) (hD : getLatestDate db = some D) :
    (today ≤ D + 1 →
        (fetchIncremental toDate api db today daysBack).2.fetchCalls = 0
        ∧ (fetchIncremental toDate api db today daysBack).2.affected = 0
        ∧ (fetchIncremental toDate api db today daysBack).2.message = "数据已是最新"
        ∧ (fetchIncremental toDate api db today daysBack).1 = db)
    ∧ (D + 1 < today →
        (fetchIncremental toDate api db today daysBack).2.fetchStart = some (D + 1)
        ∧ (fetchIncremental toDate api db today daysBack).2.fetchCalls = 1) := by
  constructor
  · intro hle
    simp [fetchIncremental, hD, hle]
  · intro hlt
    have hnle : ¬ today ≤ D + 1 := not_le.mpr hlt
    by_cases hrec : (parseApiData toDate (api (D + 1))).isEmpty <;>
      simp [fetchIncremental, hD, hnle, hrec]

theorem fetchIncremental_spec_witness :
    getLatestDate [{ date := 5, value := 50 }] = some 5
    ∧ (6 : Int) ≤ 5 + 1
    ∧ (fetchIncremental (fun _ => 0) (fun _ => none)
        [{ date := 5, value := 50 }] 6 30).2.fetchCalls = 0
    ∧ (fetchIncremental (fun _ => 0) (fun _ => none)
        [{ date := 5, value := 50 }] 6 30).2.affected = 0
    ∧ (5 : Int) + 1 < 9
    ∧ (fetchIncremental (fun _ => 0) (fun _ => none)
        [{ date := 5, value := 50 }] 9 30).2.fetchStart = some (5 + 1) :=
  ⟨by decide, by decide,
   ((fetchIncremental_spec (fun _ => 0) (fun _ => none)
      [{ date := 5, value := 50 }] 6 30 5 (by decide)).1 (by decide)).1,
   ((fetchIncremental_spec (fun _ => 0) (fun _ => none)
      [{ date := 5, value := 50 }] 6 30 5 (by decide)).1 (by decide)).2.1,
   by decide,
   ((fetchIncremental_spec (fun _ => 0) (fun _ => none)
      [{ date := 5, value := 50 }] 9 30 5 (by decide)).2 (by decide)).1⟩

/-! ### Backfill -/

theorem mem_insertAsc (d x : Int) (l : List Int) :
    x ∈ insertAsc d l ↔ x = d ∨ x ∈ l := by
  induction l with
  | nil => simp [insertAsc]
  | cons e es ih =>
      by_cases h : d ≤ e
      · simp [insertAsc, h]
      · simp [insertAsc, h, ih]
        tauto

theorem pairwise_insertAsc (d : Int) (l : List Int)
    (h : l.Pairwise (· ≤ ·)) : (insertAsc d l).Pairwise (· ≤ ·) := by
  induction l with
  | nil => simp [insertAsc]
  | cons e es ih =>
      rcases List.pairwise_cons.mp h with ⟨he, hes⟩
      by_cases hde : d ≤ e
      · rw [insertAsc, if_pos hde]
        refine List.pairwise_cons.mpr ⟨?_, h⟩
        intro x hx
        rcases List.mem_cons.mp hx with rfl | hx
        · exact hde
        · exact le_trans hde (he x hx)
      · rw [insertAsc, if_neg hde]
        refine List.pairwise_cons.mpr ⟨?_, ih hes⟩
        intro x hx
        rcases (mem_insertAsc d x es).mp hx with rfl | hx
        · exact le_of_not_le hde
        · exact he x hx

theorem sortAsc_pairwise (l : List Int) : (sortAsc l).Pairwise (· ≤ ·) := by
  induction l with
  | nil => simp [sortAsc]
  | cons d ds ih => exact pairwise_insertAsc d (sortAsc ds) ih

theorem count_insertAsc (d x : Int) (l : List Int) :
    (insertAsc d l).count x = (d :: l).count x := by
  induction l with
  | nil => rfl
  | cons e es ih =>
      by_cases hde : d ≤ e
      · simp [insertAsc, hde]
      · rw [insertAsc, if_neg hde]
        simp only [List.count_cons, ih]
        ring

theorem count_sortAsc (x : Int) (l : List Int) :
    (sortAsc l).count x = l.count x := by
  induction l with
  | nil => rfl
  | cons d ds ih =>
      show (insertAsc d (sortAsc ds)).count x = _
      rw [count_insertAsc, List.count_cons, List.count_cons, ih]

theorem backfill_foldl (f : Int → Except String (Option ApiPayload))
    (toDate : Int → Int) (l : List Int) :
    ∀ st : BackfillState,
      l.foldl (backfillStep f toDate) st
        = { db := l.foldl (fun s d => (insertRecords s (successRecords f toDate d)).1) st.db
            totalInserted := st.totalInserted
              + (l.map fun d => (successRecords f toDate d).length).sum
            errors := st.errors ++ l.filterMap fun d =>
              match f d with
              | Except.error e => some (d, e)
              | Except.ok _ => none } := by
  induction l with
  | nil => intro st; simp
  | cons d ds ih =>
      intro st
      rw [List.foldl_cons, List.foldl_cons, ih]
      cases hf : f d with
      | error e =>
          have hsr : successRecords f toDate d = [] := by
            simp [successRecords, hf]
          simp [backfillStep, hf, hsr, insertRecords]
      | ok payload =>
          have hsr : successRecords f toDate d = parseApiData toDate payload := by
            simp [successRecords, hf]
          by_cases hrec : (parseApiData toDate payload).isEmpty
          · have hnil : parseApiData toDate payload = [] :=
              List.isEmpty_iff.mp hrec
            simp [backfillStep, hf, hsr, hnil, insertRecords]
          · simp [backfillStep, hf, hsr, hrec, insertRecords]
            omega

theorem count_filterMap_error (f : Int → Except String (Option ApiPayload))
    (d : Int) (e : String) (hf : f d = Except.error e) (l : List Int) :
    (l.filterMap fun x =>
        match f x with
        | Except.error e' => some (x, e')
        | Except.ok _ => none).count (d, e) = l.count d := by
  induction l with
  | nil => rfl
  | cons a as ih =>
      by_cases had : a = d
      · subst had
        simp [List.filterMap_cons, hf, List.count_cons, ih]
      · cases hfa : f a with
        | error e' =>
            have hne : ¬ ((d, e) = (a, e')) := by
              intro h
              exact had (congrArg Prod.fst h).symm
            simp [List.filterMap_cons, hfa, List.count_cons, ih, had, hne]
        | ok p =>
            simp [List.filterMap_cons, hfa, List.count_cons, ih, had]

/-- Claim C7: `fetch_missing_data` processes the target dates in ascending order; a
failing fetch contributes exactly one entry to the error list (for a
duplicate-free target set) and aborts nothing — every date's successfully
fetched records are still upserted — and the running total of affected rows
accumulates across all dates. -/
theorem fetchMissingData_spec (f : Int → Except String (Option ApiPayload))
    (toDate : Int → Int) (db : Store) (dates : List Int) :
    (sortAsc dates).Pairwise (· ≤ ·)
    ∧ (fetchMissingData f toDate db dates).errors
        = ((sortAsc dates).filterMap fun d =>
            match f d with
            | Except.error e => some (d, e)
            | Except.ok _ => none)
    ∧ (fetchMissingData f toDate db dates).totalInserted
        = ((sortAsc dates).map fun d => (successRecords f toDate d).length).sum
    ∧ (fetchMissingData f toDate db dates).db
        = (sortAsc dates).foldl
            (fun s d => (insertRecords s (successRecords f toDate d)).1) db
    ∧ (∀ d e, dates.Nodup → d ∈ dates → f d = Except.error e →
        ((fetchMissingData f toDate db dates).errors.count (d, e)) = 1) := by
  have hchar := backfill_foldl f toDate (sortAsc dates)
    { db := db, totalInserted := 0, errors := [] }
  refine ⟨sortAsc_pairwise dates, ?_, ?_, ?_, ?_⟩
  · rw [fetchMissingData, hchar]; simp
  · rw [fetchMissingData, hchar]; simp
  · rw [fetchMissingData, hchar]
  · intro d e hnd hmem hf
    rw [fetchMissingData, hchar]
    show (List.nil ++ _).count (d, e) = 1
    rw [List.nil_append, count_filterMap_error f d e hf, count_sortAsc]
    exact List.count_eq_one_of_mem hnd hmem

theorem fetchMissingData_spec_witness :
    ([11, 12, 13, 14, 15] : List Int).Nodup
    ∧ (13 : Int) ∈ ([11, 12, 13, 14, 15] : List Int)
    ∧ (fun x : Int => if x = 13 then (Except.error "exhausted" : Except String (Option ApiPayload))
        else Except.ok none) 13 = Except.error "exhausted"
    ∧ ((fetchMissingData
          (fun x : Int => if x = 13 then Except.error "exhausted" else Except.ok none)
          (fun _ => 0) [] [11, 12, 13, 14, 15]).errors.count (13, "exhausted")) = 1 :=
  ⟨by decide, by decide, rfl,
   (fetchMissingData_spec
      (fun x : Int => if x = 13 then Except.error "exhausted" else Except.ok none)
      (fun _ => 0) [] [11, 12, 13, 14, 15]).2.2.2.2 13 "exhausted"
      (by decide) (by decide) rfl⟩

end Yan
